import Mathlib

/-!
Shallow embedding of the report-compiler core of `src/app.py`
(class `AgentK8s`, in particular `generate_report`, `generate_risk_metrics`
and `search_documentation`), together with theorems settling the frozen
claims about its behaviour.

Modelling conventions:
- The PDF object is modelled as the ordered trace of blocks emitted into it
  (`Block`); font size, bold flag, fill flag and text colour are baked into
  each block from the `set_font` / `set_fill_color` / `set_text_color` calls
  that precede it in the source.  Page footers are a per-page callback with
  no structural content and are not part of the trace.
- Python dicts that the code iterates are modelled as association lists in
  insertion order, which is the iteration order of a Python dict.
- The three backend operations that can raise inside the big try of
  `generate_report` (the `fig.write_image` chart render at line 278, the
  `pdf.image` embed at line 281, the `pdf.output` write at line 393) are
  modelled by an `Env` of three success flags; any raise is caught by the
  `except` at line 396, which calls `st.error` and returns `None`.
- `os.remove(chart_path)` at line 282 is executed only after a successful
  `pdf.image`, so the chart file survives an embed failure.
-/

/-- One block emitted into the in-progress PDF: a page start (`add_page`), a
single-line `cell`, a wrapped `multi_cell`, an embedded `image`, or vertical
spacing (`ln`).  `size`, `bold`, `fill` and `color` record the font size,
bold flag, fill flag and text colour in effect at the emitting call. -/
inductive Block where
  | pageBreak : Block
  | cell (size : Nat) (bold : Bool) (fill : Bool) (color : Nat × Nat × Nat) (text : String) : Block
  | multiCell (size : Nat) (color : Nat × Nat × Nat) (text : String) : Block
  | image (path : String) (w : Nat) : Block
  | ln (h : Nat) : Block
  deriving DecidableEq, Repr

/-- A snapshot maps each pillar name to its ordered list of (field, finding)
pairs, in the iteration order of the callers dict (`inputs.items()`). -/
abbrev Snapshot : Type := List (String × List (String × String))

/-- A severity-to-count map in its dict iteration order, as the spec calls a
RiskSummary. -/
abbrev RiskSummary : Type := List (String × Nat)

/-- Outcomes of the three backend operations that can raise inside the try
block of `generate_report`: the chart render (`fig.write_image`), the chart
embed (`pdf.image`) and the final artifact write (`pdf.output`). -/
structure Env where
  renderOk : Bool
  embedOk : Bool
  outputOk : Bool
  deriving DecidableEq, Repr

/-- The characters removed by the Python `str.strip()` with no argument. -/
def isPySpace (c : Char) : Bool :=
  c = ' ' || c = '\t' || c = '\n' || c = '\r' || c = '\x0b' || c = '\x0c'

/-- The Python `content.strip()`: drop leading and trailing whitespace. -/
def pyStrip (s : String) : String :=
  String.mk (((s.toList.dropWhile isPySpace).reverse.dropWhile isPySpace).reverse)

/-- The `pillar_titles` dict of `generate_report` (lines 286 to 293). -/
def pillar_titles : List (String × String) :=
  [("💡 Cluster Health", "Cluster Health"),
   ("💸 Cost Optimization", "Cost Optimization"),
   ("🔐 Security", "Security"),
   ("📈 Monitoring", "Monitoring"),
   ("⚙️ CI/CD", "CI/CD"),
   ("🧩 Others", "Others")]

/-- The `pillar_titles.get(pillar, pillar)` lookup at line 299: the mapped
title when the pillar is in the dict, else the pillar name itself. -/
def cleanTitle (pillar : String) : String :=
  match pillar_titles.find? (fun e => e.1 == pillar) with
  | some e => e.2
  | none => pillar

/-- The title and summary page (lines 228 to 247): title banner, the
generation timestamp line, and the executive summary. -/
def titleBlocks (ts : String) : List Block :=
  [Block.pageBreak,
   Block.cell 24 true true (0, 0, 0) "EKS Operational Review Report",
   Block.ln 10,
   Block.cell 12 false false (0, 0, 0) ("Generated on: " ++ ts),
   Block.ln 5,
   Block.cell 16 true true (0, 0, 0) "Executive Summary",
   Block.multiCell 12 (0, 0, 0) "This report provides a comprehensive review of the EKS cluster operations and identifies key areas for improvement. The assessment covers cluster health, cost optimization, security, monitoring, CI/CD, and other critical aspects of the EKS infrastructure.",
   Block.ln 5]

/-- The risk page header (lines 250 to 253), emitted before the chart render
is attempted. -/
def riskHeaderBlocks : List Block :=
  [Block.pageBreak,
   Block.cell 16 true true (0, 0, 0) "Risk Assessment Overview"]

/-- The chart embed and trailing spacing (lines 281 and 283), emitted only
when render and embed both succeed. -/
def chartBlocks : List Block :=
  [Block.image "risk_chart.png" 190,
   Block.ln 10]

/-- The blocks emitted for one (field, content) pair (lines 302 to 308): a
bold label cell and a paragraph when `content.strip()` is truthy, and the
unconditional `pdf.ln(5)` either way. -/
def fieldBlocks (field content : String) : List Block :=
  (if (pyStrip content).isEmpty then []
   else [Block.cell 14 true false (0, 0, 0) (field ++ ":"),
         Block.multiCell 12 (0, 0, 0) content]) ++ [Block.ln 5]

/-- The inner `for field, content in data.items()` loop of a pillar. -/
def fieldPart : List (String × String) → List Block
  | [] => []
  | f :: rest => fieldBlocks f.1 f.2 ++ fieldPart rest

/-- One pillar section (lines 295 to 308): a fresh page, the shaded title,
then the field blocks. -/
def pillarSection (p : String × List (String × String)) : List Block :=
  Block.pageBreak :: Block.cell 16 true true (0, 0, 0) (cleanTitle p.1) :: fieldPart p.2

/-- The `for pillar, data in inputs.items()` loop (line 295): one section per
snapshot entry, in snapshot order. -/
def pillarPart : Snapshot → List Block
  | [] => []
  | p :: rest => pillarSection p ++ pillarPart rest

/-- The `best_practices` list (lines 316 to 337) as (category, link,
description) triples. -/
def best_practices : List (String × String × String) :=
  [("Security", "https://docs.aws.amazon.com/eks/latest/userguide/security.html",
    "AWS EKS Security Best Practices"),
   ("Cost Optimization", "https://aws.amazon.com/blogs/containers/cost-optimization-for-kubernetes-on-aws/",
    "Cost Optimization for Kubernetes on AWS"),
   ("Operations", "https://aws.github.io/aws-eks-best-practices/",
    "EKS Best Practices Guide"),
   ("Networking", "https://docs.aws.amazon.com/eks/latest/userguide/network_reqs.html",
    "EKS Networking Best Practices")]

/-- The `for practice in best_practices` loop (lines 339 to 347): bold
category, the link in blue, the description, trailing spacing. -/
def refPart : List (String × String × String) → List Block
  | [] => []
  | r :: rest =>
      Block.cell 12 true false (0, 0, 0) r.1 ::
      Block.cell 12 false false (0, 0, 255) r.2.1 ::
      Block.multiCell 12 (0, 0, 0) r.2.2 ::
      Block.ln 5 :: refPart rest

/-- The references page (lines 311 to 347). -/
def refsBlocks : List Block :=
  Block.pageBreak ::
  Block.cell 16 true true (0, 0, 0) "Best Practices & References" ::
  refPart best_practices

/-- The `timeframes` dict (lines 355 to 371) as (timeframe, list of
(recommendation, priority)) pairs in insertion order. -/
def timeframes : List (String × List (String × String)) :=
  [("Short Term (3 months)",
    [("Implement automated node health checks", "High"),
     ("Configure cluster autoscaling", "High"),
     ("Enable container vulnerability scanning", "Critical")]),
   ("Medium Term (6 months)",
    [("Implement GitOps practices", "Medium"),
     ("Set up cross-region disaster recovery", "High"),
     ("Implement cost allocation tags", "Medium")]),
   ("Long Term (>6 months)",
    [("Migrate to newer EKS version", "Medium"),
     ("Implement service mesh", "Low"),
     ("Set up multi-cluster management", "Medium")])]

/-- The `priority_colors` dict (lines 373 to 378) with the `.get` default of
black (line 385). -/
def priorityColor (p : String) : Nat × Nat × Nat :=
  match ([("Critical", ((255 : Nat), (0 : Nat), (0 : Nat))),
          ("High", (255, 165, 0)),
          ("Medium", (255, 255, 0)),
          ("Low", (0, 255, 0))] : List (String × (Nat × Nat × Nat))).find?
          (fun e => e.1 == p) with
  | some e => e.2
  | none => (0, 0, 0)

/-- The inner `for rec in recommendations` loop (lines 384 to 387): each line
is a paragraph in the colour of its priority. -/
def recLines : List (String × String) → List Block
  | [] => []
  | r :: rest =>
      Block.multiCell 12 (priorityColor r.2) ("[" ++ r.2 ++ "] - " ++ r.1) :: recLines rest

/-- The `for timeframe, recommendations in timeframes.items()` loop
(lines 380 to 389): bold timeframe header, the coloured lines, trailing
spacing after the colour reset. -/
def tfPart : List (String × List (String × String)) → List Block
  | [] => []
  | tf :: rest =>
      Block.cell 14 true false (0, 0, 0) tf.1 :: (recLines tf.2 ++ (Block.ln 5 :: tfPart rest))

/-- The recommendations page (lines 350 to 389). -/
def recsBlocks : List Block :=
  Block.pageBreak ::
  Block.cell 16 true true (0, 0, 0) "Recommendations" ::
  tfPart timeframes

/-- The full block trace of a successful `generate_report` run. -/
def docBlocks (inputs : Snapshot) (ts : String) : List Block :=
  titleBlocks ts ++ riskHeaderBlocks ++ chartBlocks ++ pillarPart inputs
    ++ refsBlocks ++ recsBlocks

/-- A plotly bar figure: the category labels, the bar heights and the bar
colours, in left-to-right order. -/
structure Figure where
  x : List String
  y : List Nat
  colors : List String
  deriving DecidableEq, Repr

/-- The hardcoded `risks` dict (lines 193 to 198 and again 256 to 261) in its
insertion order. -/
def risksDict : List (String × Nat) :=
  [("Critical", 2), ("High", 3), ("Medium", 4), ("Low", 5)]

/-- The `generate_risk_metrics` method (lines 192 to 212): it takes no input
and builds a bar figure from the hardcoded `risks` dict, with
`x=list(risks.keys())`, `y=list(risks.values())` and the fixed colour list. -/
def generate_risk_metrics : Figure :=
  { x := risksDict.map Prod.fst,
    y := risksDict.map Prod.snd,
    colors := ["red", "orange", "yellow", "green"] }

/-- The bar figure built inside `generate_report` (lines 256 to 274): the
same hardcoded `risks` dict and colour list, built before the render call. -/
def reportFigure : Figure :=
  { x := risksDict.map Prod.fst,
    y := risksDict.map Prod.snd,
    colors := ["red", "orange", "yellow", "green"] }

/-- The observable outcome of one `generate_report` call: the returned value
(`Some path` or `None`), the `st.error` messages emitted, whether
`risk_chart.png` exists on disk afterwards, the blocks emitted into the pdf
object up to the point the call ended, whether `pdf.output` ran, and the bar
figure the call built. -/
structure GenResult where
  ret : Option String
  errors : List String
  chartOnDisk : Bool
  doc : List Block
  outputWritten : Bool
  figure : Figure
  deriving DecidableEq, Repr

/-- The `generate_report` method (lines 214 to 399).  The whole body sits in
one try; a raise at the render, embed or output step lands in the `except`
at line 396, which emits `st.error` and returns `None`.  The chart file is
created by a successful render and removed (line 282) only after a
successful embed. -/
def generate_report (inputs : Snapshot) (ts : String) (env : Env) : GenResult :=
  if env.renderOk then
    if env.embedOk then
      if env.outputOk then
        { ret := some "eks_review_report.pdf",
          errors := [],
          chartOnDisk := false,
          doc := docBlocks inputs ts,
          outputWritten := true,
          figure := reportFigure }
      else
        { ret := none,
          errors := ["Failed to generate report: output write error"],
          chartOnDisk := false,
          doc := docBlocks inputs ts,
          outputWritten := false,
          figure := reportFigure }
    else
      { ret := none,
        errors := ["Failed to generate report: image embed error"],
        chartOnDisk := true,
        doc := titleBlocks ts ++ riskHeaderBlocks,
        outputWritten := false,
        figure := reportFigure }
  else
    { ret := none,
      errors := ["Failed to generate report: chart render error"],
      chartOnDisk := false,
      doc := titleBlocks ts ++ riskHeaderBlocks,
      outputWritten := false,
      figure := reportFigure }

/-- One item of the list the Ares tool returns: a plain string, a dict, or a
value of any other type. -/
inductive AresItem where
  | str (s : String)
  | dict (entries : List (String × String))
  | other
  deriving DecidableEq, Repr

/-- What the documentation-lookup boundary did: returned a list, returned a
non-list value, or raised (including the tool-not-initialized raise). -/
inductive AresOutcome where
  | ok (results : List AresItem)
  | notList
  | failure (msg : String)
  deriving DecidableEq, Repr

/-- The `for result in results` loop of `search_documentation`
(lines 178 to 186): strings become title-plus-placeholder dicts, dicts are
appended unchanged, anything else is skipped. -/
def processStep (acc : List (List (String × String))) (r : AresItem) :
    List (List (String × String)) :=
  match r with
  | AresItem.str s => acc ++ [[("title", s), ("url", "#")]]
  | AresItem.dict d => acc ++ [d]
  | AresItem.other => acc

def processResults (results : List AresItem) : List (List (String × String)) :=
  results.foldl processStep []

/-- The observable outcome of one `search_documentation` call. -/
structure SearchResult where
  docs : List (List (String × String))
  errors : List String
  deriving DecidableEq, Repr

/-- The `search_documentation` method (lines 170 to 190): process a returned
list item by item; leave the result empty when the tool returned a non-list;
on any raise, emit `st.error` and return the empty list. -/
def search_documentation : AresOutcome → SearchResult
  | AresOutcome.ok results => { docs := processResults results, errors := [] }
  | AresOutcome.notList => { docs := [], errors := [] }
  | AresOutcome.failure m =>
      { docs := [], errors := ["Documentation search failed: " ++ m] }

/-- Page count of a block trace: the number of `add_page` calls. -/
def pageCount (bs : List Block) : Nat :=
  bs.countP (fun b => match b with | Block.pageBreak => true | _ => false)

/-- The titles of the shaded section-header cells of a trace, in order. -/
def headersOf (bs : List Block) : List String :=
  bs.filterMap (fun b =>
    match b with
    | Block.cell 16 true true _ t => some t
    | _ => none)

/-- The texts of the bold field-label cells of a trace, in order. -/
def labelCells (bs : List Block) : List String :=
  bs.filterMap (fun b =>
    match b with
    | Block.cell 14 true false _ t => some t
    | _ => none)

/-- The text-bearing blocks of a trace: cells and paragraphs, without page
starts, images and spacing. -/
def textBlocks (bs : List Block) : List Block :=
  bs.filter (fun b =>
    match b with
    | Block.cell _ _ _ _ _ => true
    | Block.multiCell _ _ _ => true
    | _ => false)

/-- Modelled from the spec: the fixed pillar catalog order (Cluster Health,
Cost Optimization, Security, Monitoring, CI/CD, Others), used only to compare
the document order the code produces against the order the spec asserts. -/
def specCatalogOrder : List String :=
  ["Cluster Health", "Cost Optimization", "Security", "Monitoring", "CI/CD", "Others"]

/-- The normalized form of one lookup item, as the claim describes the
processing: strings map to a (title, placeholder-link) dict, dicts are kept,
anything else is dropped. -/
def convertItem : AresItem → Option (List (String × String))
  | AresItem.str s => some [("title", s), ("url", "#")]
  | AresItem.dict d => some d
  | AresItem.other => none

/-- Concrete snapshot used by witnesses: the Security-pillar scenario from
the spec, with one non-empty field and two empty ones. -/
def snapA : Snapshot :=
  [("🔐 Security",
    [("IAM Configuration", "ok"),
     ("Secret Management", ""),
     ("Network Policies", "")])]

/-- Concrete snapshot whose dict order differs from the fixed catalog order:
Security precedes Cluster Health. -/
def snapRev : Snapshot :=
  [("🔐 Security", [("IAM Configuration", "ok")]),
   ("💡 Cluster Health", [("Cluster Status", "fine")])]

theorem figure_constant (i : Snapshot) (t : String) (e : Env) :
    (generate_report i t e).figure = reportFigure := by
  rcases e with ⟨r, em, o⟩
  cases r <;> cases em <;> cases o <;> rfl

theorem pageCount_append (a b : List Block) :
    pageCount (a ++ b) = pageCount a + pageCount b := by
  simp [pageCount, List.countP_append]

theorem pageCount_titleBlocks (ts : String) : pageCount (titleBlocks ts) = 1 := rfl

theorem pageCount_fieldBlocks (f c : String) : pageCount (fieldBlocks f c) = 0 := by
  unfold fieldBlocks
  cases h : (pyStrip c).isEmpty <;>
    simp [pageCount, h, List.countP_cons, List.countP_nil]

theorem pageCount_fieldPart (l : List (String × String)) : pageCount (fieldPart l) = 0 := by
  induction l with
  | nil => rfl
  | cons f rest ih => simp [fieldPart, pageCount_append, pageCount_fieldBlocks, ih]

theorem pageCount_pillarSection (p : String × List (String × String)) :
    pageCount (pillarSection p) = 1 := by
  have h := pageCount_fieldPart p.2
  simp [pillarSection, pageCount, List.countP_cons] at h ⊢
  simpa [pageCount] using h

theorem pageCount_pillarPart (l : Snapshot) : pageCount (pillarPart l) = l.length := by
  induction l with
  | nil => rfl
  | cons p rest ih =>
      simp [pillarPart, pageCount_append, pageCount_pillarSection, ih]
      omega

/-- C1 counterexample: with the chart render raising (and every later step
able to succeed), `generate_report` returns `None` and never writes the
artifact, refuting the claim that the final document is still produced with
a placeholder risk section. -/
theorem c1_chart_failure_counterexample :
    (generate_report snapA "2024-01-01 00:00:00" ⟨false, true, true⟩).ret = none ∧
    (generate_report snapA "2024-01-01 00:00:00" ⟨false, true, true⟩).outputWritten = false ∧
    pageCount (generate_report snapA "2024-01-01 00:00:00" ⟨false, true, true⟩).doc = 2 := by
  refine ⟨rfl, rfl, rfl⟩

/-- C1 amended: if the chart backend raises during render, the whole
`generate_report` call aborts: the error is surfaced as a user-visible
message, no artifact is returned, and the blocks emitted stop at the risk
page header, so no pillar, reference or recommendation section is rendered
and no placeholder appears. -/
theorem c1_render_failure_aborts (inputs : Snapshot) (ts : String) (env : Env)
    (h : env.renderOk = false) :
    (generate_report inputs ts env).ret = none ∧
    (generate_report inputs ts env).errors ≠ [] ∧
    (generate_report inputs ts env).doc = titleBlocks ts ++ riskHeaderBlocks := by
  simp [generate_report, h]

/-- C1 amended, witness at a concrete input. -/
theorem c1_render_failure_aborts_witness :
    (Env.mk false true true).renderOk = false ∧
    ((generate_report snapA "2024-01-01 00:00:00" (Env.mk false true true)).ret = none ∧
     (generate_report snapA "2024-01-01 00:00:00" (Env.mk false true true)).errors ≠ [] ∧
     (generate_report snapA "2024-01-01 00:00:00" (Env.mk false true true)).doc =
       titleBlocks "2024-01-01 00:00:00" ++ riskHeaderBlocks) :=
  ⟨rfl, c1_render_failure_aborts snapA "2024-01-01 00:00:00" (Env.mk false true true) rfl⟩

/-- C2: evaluating the code at the failing input: when the chart render
succeeds but the embed (`pdf.image`) raises, the call ends with
`risk_chart.png` still on disk, because `os.remove` at line 282 is reached
only on the success path — the temporary asset is not released on every
exit path. -/
theorem c2_chart_file_survives_embed_failure :
    (generate_report snapA "2024-01-01 00:00:00" ⟨true, false, true⟩).chartOnDisk = true ∧
    (generate_report snapA "2024-01-01 00:00:00" ⟨true, true, true⟩).chartOnDisk = false := by
  refine ⟨rfl, rfl⟩

/-- C3: whenever any of the three fallible steps fails, `generate_report`
returns `None` (no partial artifact path) and at least one `st.error`
message is emitted, so the failure is user-visible and not swallowed. -/
theorem c3_failure_yields_no_artifact (inputs : Snapshot) (ts : String) (env : Env)
    (h : env.renderOk = false ∨ env.embedOk = false ∨ env.outputOk = false) :
    (generate_report inputs ts env).ret = none ∧
    (generate_report inputs ts env).errors ≠ [] := by
  rcases env with ⟨r, em, o⟩
  cases r <;> cases em <;> cases o <;> simp_all [generate_report]

/-- C3 witness at a concrete input. -/
theorem c3_failure_yields_no_artifact_witness :
    ((Env.mk true false true).renderOk = false ∨ (Env.mk true false true).embedOk = false ∨
      (Env.mk true false true).outputOk = false) ∧
    ((generate_report snapA "2024-01-01 00:00:00" (Env.mk true false true)).ret = none ∧
     (generate_report snapA "2024-01-01 00:00:00" (Env.mk true false true)).errors ≠ []) :=
  ⟨Or.inr (Or.inl rfl),
   c3_failure_yields_no_artifact snapA "2024-01-01 00:00:00" (Env.mk true false true)
     (Or.inr (Or.inl rfl))⟩

/-- C7: for every RiskSummary a caller may hold, the bars of the chart the
code builds appear in the fixed order Critical, High, Medium, Low with the
fixed colours red, orange, yellow, green — both in `generate_risk_metrics`
and in the figure built inside `generate_report`; the code never consults
any caller-supplied severity map, so no iteration order can affect this. -/
theorem c7_bars_fixed_order (rs : RiskSummary) :
    generate_risk_metrics.x = ["Critical", "High", "Medium", "Low"] ∧
    generate_risk_metrics.colors = ["red", "orange", "yellow", "green"] ∧
    reportFigure.x = ["Critical", "High", "Medium", "Low"] ∧
    reportFigure.colors = ["red", "orange", "yellow", "green"] := by
  refine ⟨rfl, rfl, rfl, rfl⟩

/-- C10: the figure built by any two `generate_report` calls is the same
constant figure, whose counts are the hardcoded Critical=2, High=3,
Medium=4, Low=5 — the chart depends neither on the snapshot nor on any
externally supplied severity map; `generate_risk_metrics` uses the same
constants. -/
theorem c10_chart_constant (i1 i2 : Snapshot) (t1 t2 : String) (e1 e2 : Env) :
    (generate_report i1 t1 e1).figure = (generate_report i2 t2 e2).figure ∧
    (generate_report i1 t1 e1).figure.y = [2, 3, 4, 5] ∧
    (generate_report i1 t1 e1).figure.x = ["Critical", "High", "Medium", "Low"] ∧
    generate_risk_metrics.y = [2, 3, 4, 5] := by
  refine ⟨?_, ?_, ?_, rfl⟩
  · rw [figure_constant, figure_constant]
  · rw [figure_constant]; rfl
  · rw [figure_constant]; rfl

theorem headersOf_append (a b : List Block) :
    headersOf (a ++ b) = headersOf a ++ headersOf b := by
  simp [headersOf, List.filterMap_append]

theorem headersOf_fieldBlocks (f c : String) : headersOf (fieldBlocks f c) = [] := by
  unfold fieldBlocks
  cases h : (pyStrip c).isEmpty <;> simp [headersOf, h]

theorem headersOf_fieldPart (l : List (String × String)) : headersOf (fieldPart l) = [] := by
  induction l with
  | nil => rfl
  | cons f rest ih => simp [fieldPart, headersOf_append, headersOf_fieldBlocks, ih]

theorem headersOf_pillarSection (p : String × List (String × String)) :
    headersOf (pillarSection p) = [cleanTitle p.1] := by
  have h := headersOf_fieldPart p.2
  simp [pillarSection, headersOf] at h ⊢
  simpa [headersOf] using h

theorem labelCells_append (a b : List Block) :
    labelCells (a ++ b) = labelCells a ++ labelCells b := by
  simp [labelCells, List.filterMap_append]

theorem labelCells_fieldBlocks (f c : String) :
    labelCells (fieldBlocks f c) =
      if (pyStrip c).isEmpty then [] else [f ++ ":"] := by
  unfold fieldBlocks
  cases h : (pyStrip c).isEmpty <;> simp [labelCells, h]

theorem labelCells_fieldPart (l : List (String × String)) :
    labelCells (fieldPart l) =
      (l.filter (fun f => !(pyStrip f.2).isEmpty)).map (fun f => f.1 ++ ":") := by
  induction l with
  | nil => rfl
  | cons f rest ih =>
      cases h : (pyStrip f.2).isEmpty <;>
        simp [fieldPart, labelCells_append, labelCells_fieldBlocks, h, ih, List.filter_cons]

theorem textBlocks_append (a b : List Block) :
    textBlocks (a ++ b) = textBlocks a ++ textBlocks b := by
  simp [textBlocks, List.filter_append]

theorem textBlocks_fieldPart_empty (l : List (String × String))
    (h : ∀ f ∈ l, (pyStrip f.2).isEmpty = true) : textBlocks (fieldPart l) = [] := by
  induction l with
  | nil => rfl
  | cons f rest ih =>
      have hf : (pyStrip f.2).isEmpty = true := h f (by simp)
      have hrest : ∀ f ∈ rest, (pyStrip f.2).isEmpty = true := fun g hg => h g (by simp [hg])
      show textBlocks (fieldBlocks f.1 f.2 ++ fieldPart rest) = []
      rw [textBlocks_append, ih hrest]
      simp [fieldBlocks, hf, textBlocks]

theorem textBlocks_pillarSection (p : String × List (String × String)) :
    textBlocks (pillarSection p) =
      Block.cell 16 true true (0, 0, 0) (cleanTitle p.1) :: textBlocks (fieldPart p.2) := by
  simp [pillarSection, textBlocks, List.filter_cons]

/-- C4: on a successful run, the page count of the assembled document is
exactly 2 + |pillars in the snapshot| + 2 — one title and summary page, one
risk-chart page, one page per pillar, one references page and one
recommendations page — and every pillar section begins with an `add_page`,
so each pillar starts on a new page.  Pages here are the pages the code
starts explicitly; overflow pagination done by the PDF backend for long
paragraphs is a font-metric matter outside this model. -/
theorem c4_page_count (inputs : Snapshot) (ts : String) (env : Env)
    (hok : env.renderOk = true ∧ env.embedOk = true ∧ env.outputOk = true)
    (hne : ∀ p ∈ inputs, ∃ f ∈ p.2, (pyStrip f.2).isEmpty = false) :
    pageCount (generate_report inputs ts env).doc = 2 + inputs.length + 2 ∧
    ∀ p : String × List (String × String),
      ∃ rest, pillarSection p = Block.pageBreak :: rest := by
  obtain ⟨h1, h2, h3⟩ := hok
  constructor
  · simp only [generate_report, h1, h2, h3, if_true]
    simp [docBlocks, pageCount_append, pageCount_titleBlocks, pageCount_pillarPart]
    have hr : pageCount riskHeaderBlocks = 1 := rfl
    have hc : pageCount chartBlocks = 0 := rfl
    have hf : pageCount refsBlocks = 1 := rfl
    have hq : pageCount recsBlocks = 1 := rfl
    omega
  · intro p
    exact ⟨Block.cell 16 true true (0, 0, 0) (cleanTitle p.1) :: fieldPart p.2, rfl⟩

/-- C4 witness at a concrete input. -/
theorem c4_page_count_witness :
    ((Env.mk true true true).renderOk = true ∧ (Env.mk true true true).embedOk = true ∧
      (Env.mk true true true).outputOk = true) ∧
    (∀ p ∈ snapA, ∃ f ∈ p.2, (pyStrip f.2).isEmpty = false) ∧
    (pageCount (generate_report snapA "2024-01-01 00:00:00" (Env.mk true true true)).doc =
      2 + snapA.length + 2 ∧
     ∀ p : String × List (String × String),
       ∃ rest, pillarSection p = Block.pageBreak :: rest) :=
  ⟨⟨rfl, rfl, rfl⟩, by decide,
   c4_page_count snapA "2024-01-01 00:00:00" (Env.mk true true true)
     ⟨rfl, rfl, rfl⟩ (by decide)⟩

/-- C5 counterexample: a snapshot that lists Security before Cluster Health
produces its sections in that same order, while the fixed catalog order of
those two pillars is Cluster Health before Security — so section order
follows the callers snapshot order, not the fixed catalog order. -/
theorem c5_section_order_counterexample :
    headersOf (pillarPart snapRev) = ["Security", "Cluster Health"] ∧
    specCatalogOrder.filter (fun t => (headersOf (pillarPart snapRev)).contains t) =
      ["Cluster Health", "Security"] ∧
    headersOf (pillarPart snapRev) ≠
      specCatalogOrder.filter (fun t => (headersOf (pillarPart snapRev)).contains t) := by
  refine ⟨?_, ?_, ?_⟩ <;> decide

/-- C5 amended: the document contains exactly one section per snapshot
entry, in the iteration order of the callers snapshot (not a fixed catalog
order), each section titled by the `pillar_titles` lookup and containing
exactly the field labels whose finding text is non-empty after stripping. -/
theorem c5_sections_in_snapshot_order (inputs : Snapshot) :
    headersOf (pillarPart inputs) = inputs.map (fun p => cleanTitle p.1) ∧
    ∀ p : String × List (String × String),
      labelCells (pillarSection p) =
        (p.2.filter (fun f => !(pyStrip f.2).isEmpty)).map (fun f => f.1 ++ ":") := by
  constructor
  · induction inputs with
    | nil => rfl
    | cons p rest ih =>
        simp [pillarPart, headersOf_append, headersOf_pillarSection, ih]
  · intro p
    have h := labelCells_fieldPart p.2
    simp [pillarSection, labelCells] at h ⊢
    simpa [labelCells] using h

/-- C6: a field whose finding is empty or whitespace-only emits no
text-bearing block at all — neither the bold label cell nor the paragraph,
only the unconditional vertical spacing — and a pillar whose fields are all
empty renders as its shaded header cell and nothing else. -/
theorem c6_empty_field_emits_no_text (field content : String)
    (p : String × List (String × String))
    (hc : (pyStrip content).isEmpty = true)
    (hp : ∀ f ∈ p.2, (pyStrip f.2).isEmpty = true) :
    textBlocks (fieldBlocks field content) = [] ∧
    textBlocks (pillarSection p) = [Block.cell 16 true true (0, 0, 0) (cleanTitle p.1)] := by
  constructor
  · simp [fieldBlocks, hc, textBlocks]
  · rw [textBlocks_pillarSection, textBlocks_fieldPart_empty p.2 hp]

/-- C6 witness at a concrete input. -/
theorem c6_empty_field_emits_no_text_witness :
    (pyStrip "  \n ").isEmpty = true ∧
    (∀ f ∈ [("Secret Management", ""), ("Network Policies", "\t")],
      (pyStrip f.2).isEmpty = true) ∧
    (textBlocks (fieldBlocks "Secret Management" "  \n ") = [] ∧
     textBlocks (pillarSection
        ("🔐 Security", [("Secret Management", ""), ("Network Policies", "\t")])) =
       [Block.cell 16 true true (0, 0, 0)
         (cleanTitle ("🔐 Security",
           [("Secret Management", ""), ("Network Policies", "\t")]).1)]) :=
  ⟨by decide, by decide,
   c6_empty_field_emits_no_text "Secret Management" "  \n "
     ("🔐 Security", [("Secret Management", ""), ("Network Policies", "\t")])
     (by decide) (by decide)⟩

/-- Concrete lookup result used by the C8 witness: one plain string, one
structured dict, one item of another type. -/
def aresSample : List AresItem :=
  [AresItem.str "EKS docs",
   AresItem.dict [("title", "Guide"), ("url", "https://aws.github.io/aws-eks-best-practices/")],
   AresItem.other]

theorem foldl_processStep (l : List AresItem) :
    ∀ acc, l.foldl processStep acc = acc ++ l.filterMap convertItem := by
  induction l with
  | nil => intro acc; simp
  | cons r rest ih => intro acc; cases r <;> simp [processStep, convertItem, ih]

/-- C8: processing of the documentation-lookup result: when the tool returns
a list, each plain string becomes a (title, placeholder-link) dict, each
dict is preserved, and every other item is skipped, with no error; when the
tool returns a non-list, the result is empty; when the lookup raises, the
result is empty and the failure is surfaced as a user-visible message, so
document generation is never blocked by the lookup. -/
theorem c8_lookup_processing (o : AresOutcome) :
    (∀ items, o = AresOutcome.ok items →
      (search_documentation o).docs = items.filterMap convertItem ∧
      (search_documentation o).errors = []) ∧
    (∀ m, o = AresOutcome.failure m →
      (search_documentation o).docs = [] ∧ (search_documentation o).errors ≠ []) ∧
    (o = AresOutcome.notList → (search_documentation o).docs = []) := by
  refine ⟨?_, ?_, ?_⟩
  · intro items h
    subst h
    exact ⟨by simp [search_documentation, processResults, foldl_processStep], rfl⟩
  · intro m h
    subst h
    exact ⟨rfl, by simp [search_documentation]⟩
  · intro h
    subst h
    rfl

/-- C8 witness at a concrete input. -/
theorem c8_lookup_processing_witness :
    (search_documentation (AresOutcome.ok aresSample)).docs = aresSample.filterMap convertItem ∧
    aresSample.filterMap convertItem =
      [[("title", "EKS docs"), ("url", "#")],
       [("title", "Guide"), ("url", "https://aws.github.io/aws-eks-best-practices/")]] :=
  ⟨((c8_lookup_processing (AresOutcome.ok aresSample)).1 aresSample rfl).1, by decide⟩

/-- C9: two successful `generate_report` runs from the same snapshot produce
documents whose block traces are identical once the generation-timestamp
line — the block at index 3 of the trace, the only place the clock is read —
is removed; every other block is a function of the snapshot and the fixed
catalogs alone. -/
theorem c9_deterministic_modulo_timestamp (inputs : Snapshot) (t1 t2 : String) (env : Env)
    (h : env.renderOk = true ∧ env.embedOk = true ∧ env.outputOk = true) :
    (generate_report inputs t1 env).ret = some "eks_review_report.pdf" ∧
    ((generate_report inputs t1 env).doc).eraseIdx 3 =
      ((generate_report inputs t2 env).doc).eraseIdx 3 := by
  obtain ⟨h1, h2, h3⟩ := h
  refine ⟨by simp [generate_report, h1, h2, h3], ?_⟩
  simp only [generate_report, h1, h2, h3, if_true]
  rfl

/-- C9 witness at a concrete input. -/
theorem c9_deterministic_modulo_timestamp_witness :
    ((Env.mk true true true).renderOk = true ∧ (Env.mk true true true).embedOk = true ∧
      (Env.mk true true true).outputOk = true) ∧
    ((generate_report snapA "2024-01-01 00:00:00" (Env.mk true true true)).ret =
        some "eks_review_report.pdf" ∧
     ((generate_report snapA "2024-01-01 00:00:00" (Env.mk true true true)).doc).eraseIdx 3 =
       ((generate_report snapA "2025-06-30 12:34:56" (Env.mk true true true)).doc).eraseIdx 3) :=
  ⟨⟨rfl, rfl, rfl⟩,
   c9_deterministic_modulo_timestamp snapA "2024-01-01 00:00:00" "2025-06-30 12:34:56"
     (Env.mk true true true) ⟨rfl, rfl, rfl⟩⟩
